import Mathlib

/-
Verification of the account-keystore lifecycle and test-transaction workflow
of the google-oauth-react dashboard.

The embedding models the TypeScript sources directly:
  src/lib/polkadot.ts           account generation and keystore (de)serialization
  src/lib/googleDrive.ts        the Drive adapter interface (modelled as an oracle)
  src/lib/polkadotExtrinsics.ts transaction submission and connection lifecycle
  src/App.tsx                   the controller handlers (save / fetch / generate /
                                test-extrinsic), identical in both revisions of App

Modelling conventions:
  - JS values are modelled by the inductive Json; the JS undefined is modelled
    by the value none of Option Json (JSON.parse never yields undefined, but a
    member access on an object may).
  - Serialized JSON strings are modelled by their parsed values: an Option Json
    where none stands for text that is not valid JSON.  JSON.stringify then
    JSON.parse is the identity on values (a guarantee of the JS runtime), so a
    value faithfully represents the string it prints to.
  - Adapter calls (Drive search/download, chain connect/sign/submit) are
    external; each handler takes an environment record carrying the outcome of
    every adapter call it makes, and returns a trace of its observable actions.
  - A thrown JS exception is an Except.error String carrying the message.
-/

namespace Dashboard

/-- JSON values, as produced by JSON.parse. -/
inductive Json where
  | null
  | bool (b : Bool)
  | num (n : Int)
  | str (s : String)
  | arr (elems : List Json)
  | obj (fields : List (String × Json))

/-- JS member access with optional chaining, a?.k: null and undefined give
undefined, an object gives the field (or undefined), any other value gives
undefined. Never throws. -/
def jsGetOpt : Option Json → String → Option Json
  | some (Json.obj fields), k => fields.lookup k
  | _, _ => none

/-- Plain JS member access a.k: throws a TypeError on null and undefined,
yields the field (or undefined) on an object, undefined on any other value. -/
def jsGetE : Option Json → String → Except String (Option Json)
  | none, _ => Except.error "TypeError: cannot read properties of undefined"
  | some Json.null, _ => Except.error "TypeError: cannot read properties of null"
  | some (Json.obj fields), k => Except.ok (fields.lookup k)
  | some _, _ => Except.ok none

/-- JS truthiness of a value (undefined, null, false, 0 and the empty string
are falsy; arrays and objects are truthy). -/
def jsTruthy : Option Json → Bool
  | none => false
  | some Json.null => false
  | some (Json.bool b) => b
  | some (Json.num n) => !(n == 0)
  | some (Json.str s) => !(s == "")
  | some (Json.arr _) => true
  | some (Json.obj _) => true

/-- Whether v.slice(i, j) evaluates without throwing: strings and arrays have
a slice method, every other value (including undefined and null) throws. -/
def jsSliceOk : Option Json → Bool
  | some (Json.str _) => true
  | some (Json.arr _) => true
  | _ => false

/-- The JS a || b: the left operand when truthy, else the right. -/
def jsOr (v : Option Json) (d : Json) : Json :=
  if jsTruthy v then v.getD Json.null else d

/-- new Date(v).toISOString() for a JSON value v: valid for a numeric
timestamp within the JS date range (8.64e15 ms either side of the epoch),
throws a RangeError outside it.  Non-numeric arguments are modelled
conservatively as invalid dates; no theorem below depends on that branch. -/
def jsDateToIso : Json → Except String String
  | Json.num n =>
      if n.natAbs ≤ 8640000000000000 then Except.ok ("epoch-ms:" ++ toString n)
      else Except.error "RangeError: Invalid time value"
  | _ => Except.error "RangeError: Invalid time value"

/-- The SubstrateAccount record of src/lib/polkadot.ts.  Every field holds a
dynamic JS value (none models undefined): the fetch fallback in App.tsx stores
an arbitrary parsed JSON object under this type, so the fields cannot be
assumed to be strings. -/
structure SubstrateAccount where
  mnemonic : Option Json
  address : Option Json
  publicKey : Option Json
  keystoreJson : Option Json
  meta : Option Json

/-- Viewing an arbitrary parsed JSON value as a SubstrateAccount: the cast
`account = oldAccount` in the handleFetchKeys fallback.  Fields are read by
optional lookup; later plain accesses on them are modelled where they occur. -/
def jsToSubstrateAccount (j : Json) : SubstrateAccount :=
  { mnemonic := jsGetOpt (some j) "mnemonic"
    address := jsGetOpt (some j) "address"
    publicKey := jsGetOpt (some j) "publicKey"
    keystoreJson := jsGetOpt (some j) "keystoreJson"
    meta := jsGetOpt (some j) "meta" }

/-- The outcomes of the external crypto and keyring adapter
(@polkadot/util-crypto and @polkadot/keyring) during one generation:
the fresh mnemonic, key derivation from a mnemonic, keystore encryption,
and the current time. -/
structure CryptoAdapter where
  freshMnemonic : String
  deriveAddress : String → String
  derivePublicKeyHex : String → String
  encodeKeystore : String → String → String
  nowIso : String

/-- The fixed encoding descriptor of a keyring.toJson document
(pkcs8 content, scrypt plus xsalsa20-poly1305, version 3). -/
def encodingDescriptor : Json :=
  Json.obj [
    ("content", Json.arr [Json.str "pkcs8", Json.str "sr25519"]),
    ("type", Json.arr [Json.str "scrypt", Json.str "xsalsa20-poly1305"]),
    ("version", Json.str "3")]

/-- keyring.toJson(address, password): the encrypted keystore document of the
pair.  The address field is the address of the pair being exported, and meta
is the meta object given to addFromUri verbatim ({ name, created }). -/
def keyringToJson (A : CryptoAdapter) (addr accountName password mnemonic : String) : Json :=
  Json.obj [
    ("encoded", Json.str (A.encodeKeystore mnemonic password)),
    ("encoding", encodingDescriptor),
    ("address", Json.str addr),
    ("meta", Json.obj [("name", Json.str accountName), ("created", Json.str A.nowIso)])]

/-- generateSubstrateAccount (src/lib/polkadot.ts 50-82): generate a mnemonic,
derive the pair, export the encrypted keystore, and return the account record
(the source reads the clock twice for the two meta records; the model uses the
same instant, which no claim distinguishes). -/
def generateSubstrateAccount (A : CryptoAdapter) (accountName password : String) :
    SubstrateAccount :=
  let mnemonic := A.freshMnemonic
  let addr := A.deriveAddress mnemonic
  { mnemonic := some (Json.str mnemonic)
    address := some (Json.str addr)
    publicKey := some (Json.str (A.derivePublicKeyHex mnemonic))
    keystoreJson := some (keyringToJson A addr accountName password mnemonic)
    meta := some (Json.obj [("name", Json.str accountName), ("created", Json.str A.nowIso)]) }

/-- accountToPolkadotJson (src/lib/polkadot.ts 145-149):
JSON.stringify(account.keystoreJson, null, 2).  The serialized string is
modelled by its JSON value; none models the output for an absent document. -/
def accountToPolkadotJson (account : SubstrateAccount) : Option Json :=
  account.keystoreJson

/-- accountFromPolkadotJson (src/lib/polkadot.ts 157-172): JSON.parse the
string, then build an account with an empty mnemonic, the address field of the
parsed document, an empty publicKey, the document itself, and a meta object
whose name defaults to Imported Account and whose created field converts
meta.whenCreated when truthy (a conversion that can throw on an invalid
timestamp) and is the present instant nowIso otherwise. -/
def accountFromPolkadotJson (nowIso : String) (content : Option Json) :
    Except String SubstrateAccount := do
  let keystoreJson ← match content with
    | none => Except.error "SyntaxError: Unexpected token in JSON"
    | some j => Except.ok j
  let addr ← jsGetE (some keystoreJson) "address"
  let metaVal ← jsGetE (some keystoreJson) "meta"
  let nameVal := jsGetOpt metaVal "name"
  let whenCreatedVal := jsGetOpt metaVal "whenCreated"
  let created ← match whenCreatedVal with
    | some v => if jsTruthy (some v) then jsDateToIso v else Except.ok nowIso
    | none => Except.ok nowIso
  Except.ok
    { mnemonic := some (Json.str "")
      address := addr
      publicKey := some (Json.str "")
      keystoreJson := some keystoreJson
      meta := some (Json.obj [
        ("name", jsOr nameVal (Json.str "Imported Account")),
        ("created", Json.str created)]) }

/-- The file content handleSaveKeys (src/App.tsx 310-355) uploads: the blob
holds exactly accountToPolkadotJson(account). -/
def saveKeysFileContent (account : SubstrateAccount) : Option Json :=
  accountToPolkadotJson account

/-- The file name handleSaveKeys builds: polkadot-keystore-, an eight character
address slice, a dash, the epoch timestamp and .json. -/
def saveKeysFileName (addressText : String) (timestampMs : Int) : String :=
  "polkadot-keystore-" ++ addressText.take 8 ++ "-" ++ toString timestampMs ++ ".json"

/-- C2: serializing a generated account with accountToPolkadotJson and parsing
the result with accountFromPolkadotJson succeeds and yields an account whose
address equals the original address and whose mnemonic is the empty string,
for every adapter outcome, account name, password, and parse-time clock. -/
theorem keystoreRoundTripAddressAndEmptyMnemonic (A : CryptoAdapter)
    (accountName password nowIso2 : String) :
    (accountFromPolkadotJson nowIso2
        (accountToPolkadotJson (generateSubstrateAccount A accountName password))).map
      (fun acc => (acc.address, acc.mnemonic))
    = Except.ok ((generateSubstrateAccount A accountName password).address,
        some (Json.str "")) := by
  rfl

/-- C3: the bytes handleSaveKeys uploads are a function of account.keystoreJson
alone: two accounts with the same keystore document produce identical file
content, whatever their mnemonic, publicKey, address or meta fields hold. -/
theorem saveContentDependsOnlyOnKeystore (a b : SubstrateAccount)
    (h : a.keystoreJson = b.keystoreJson) :
    saveKeysFileContent a = saveKeysFileContent b := by
  simp [saveKeysFileContent, accountToPolkadotJson, h]

/-- Witness for C3: two concrete accounts that differ in mnemonic, publicKey
and meta but share the keystore document get identical persisted content. -/
theorem saveContentDependsOnlyOnKeystoreW :
    saveKeysFileContent
        { mnemonic := some (Json.str "alpha beta gamma")
          address := some (Json.str "g6Addr")
          publicKey := some (Json.str "0x01")
          keystoreJson := some (Json.obj [("address", Json.str "g6Addr")])
          meta := some (Json.obj [("name", Json.str "one")]) }
      = saveKeysFileContent
        { mnemonic := some (Json.str "delta epsilon zeta")
          address := some (Json.str "g6Addr")
          publicKey := some (Json.str "0x02")
          keystoreJson := some (Json.obj [("address", Json.str "g6Addr")])
          meta := some (Json.obj [("name", Json.str "two")]) } :=
  saveContentDependsOnlyOnKeystore _ _ rfl

/-- A file descriptor returned by the Drive list endpoint. -/
structure DriveFile where
  id : String
  name : String
  deriving DecidableEq

/-- The two search patterns handleFetchKeys uses: the current convention
(name contains polkadot-keystore, JSON mime type) and the deprecated one
(name contains polkadot-account, JSON mime type). -/
inductive SearchPattern where
  | keystorePattern
  | legacyPattern
  deriving DecidableEq

/-- Adapter outcomes for one retrieve run: the result of the fetchFiles call
for each pattern (error models a thrown fetch or a non-ok response), whether
the media download of the chosen file returned ok (a thrown download fetch is
observably the same as a non-ok response: both reach the outer catch), the
downloaded text as parsed JSON (none when the text is not valid JSON, which
makes each JSON.parse of it throw), and the clock for default meta fields. -/
structure FetchEnv where
  keystoreSearch : Except String (List DriveFile)
  legacySearch : Except String (List DriveFile)
  downloadOk : Bool
  content : Option Json
  nowIso : String

/-- The observable outcome of a retrieve run. -/
inductive FetchOutcome where
  | noToken
  | notFound
  | loadedKeystore
  | loadedLegacy (plaintextWarning : Bool)
  | fetchError
  deriving DecidableEq

/-- The trace of one handleFetchKeys run: search queries issued in order, the
file chosen for download, the outcome, the account stored by the final
setGeneratedAccount (none when it never ran), and the isFetchingKeys flag when
the handler returns. -/
structure FetchResult where
  queriesIssued : List SearchPattern
  chosenFile : Option DriveFile
  outcome : FetchOutcome
  accountSet : Option SubstrateAccount
  busyAtEnd : Bool

/-- The first parse attempt of handleFetchKeys (src/App.tsx 417-427):
accountFromPolkadotJson, then the toast that slices account.address (a throw
when the address value has no slice method) and the toast reading
account.meta.name.  Any throw falls to the catch fallback. -/
def tryLoadKeystore (nowIso : String) (content : Option Json) :
    Except String SubstrateAccount := do
  let account ← accountFromPolkadotJson nowIso content
  if jsSliceOk account.address then
    match jsGetE account.meta "name" with
    | Except.error e => Except.error e
    | Except.ok _ => Except.ok account
  else Except.error "TypeError: slice is not a function"

/-- The parse phase of handleFetchKeys after a file was chosen (src/App.tsx
400-447): a failed download throws to the outer catch; otherwise the keystore
parse is tried, and on its failure the raw content is re-parsed as the
deprecated plaintext account (JSON.parse again, then the same address slice
and meta.name toasts, then a plaintext warning exactly when the mnemonic field
is truthy).  Every throw lands in the outer catch, which reports a fetch
error and leaves the account unchanged. -/
def fetchParsePhase (env : FetchEnv) : FetchOutcome × Option SubstrateAccount :=
  if env.downloadOk then
    match tryLoadKeystore env.nowIso env.content with
    | Except.ok account => (FetchOutcome.loadedKeystore, some account)
    | Except.error _ =>
      match env.content with
      | none => (FetchOutcome.fetchError, none)
      | some j =>
        let oldAccount := jsToSubstrateAccount j
        if jsSliceOk oldAccount.address then
          match jsGetE oldAccount.meta "name" with
          | Except.ok _ =>
              (FetchOutcome.loadedLegacy (jsTruthy oldAccount.mnemonic), some oldAccount)
          | Except.error _ => (FetchOutcome.fetchError, none)
        else (FetchOutcome.fetchError, none)
  else (FetchOutcome.fetchError, none)

/-- handleFetchKeys (src/App.tsx 357-460): guard on the access token, search
with the current pattern, fall back to the deprecated pattern only when the
current search returned zero files, stop with a warning when both are empty,
download the first file of whichever search produced matches, and run the
parse phase.  The finally clause clears isFetchingKeys on every path. -/
def handleFetchKeys (hasToken : Bool) (env : FetchEnv) : FetchResult :=
  if hasToken then
    match env.keystoreSearch with
    | Except.error _ =>
        { queriesIssued := [SearchPattern.keystorePattern], chosenFile := none
          outcome := FetchOutcome.fetchError, accountSet := none, busyAtEnd := false }
    | Except.ok files1 =>
      match files1 with
      | file :: _ =>
          let phase := fetchParsePhase env
          { queriesIssued := [SearchPattern.keystorePattern], chosenFile := some file
            outcome := phase.1, accountSet := phase.2, busyAtEnd := false }
      | [] =>
        match env.legacySearch with
        | Except.error _ =>
            { queriesIssued := [SearchPattern.keystorePattern, SearchPattern.legacyPattern]
              chosenFile := none, outcome := FetchOutcome.fetchError
              accountSet := none, busyAtEnd := false }
        | Except.ok files2 =>
          match files2 with
          | file :: _ =>
              let phase := fetchParsePhase env
              { queriesIssued := [SearchPattern.keystorePattern, SearchPattern.legacyPattern]
                chosenFile := some file, outcome := phase.1
                accountSet := phase.2, busyAtEnd := false }
          | [] =>
              { queriesIssued := [SearchPattern.keystorePattern, SearchPattern.legacyPattern]
                chosenFile := none, outcome := FetchOutcome.notFound
                accountSet := none, busyAtEnd := false }
  else
    { queriesIssued := [], chosenFile := none, outcome := FetchOutcome.noToken
      accountSet := none, busyAtEnd := false }

/-- C4: in every retrieve run with a token, the current-pattern search comes
first, the deprecated-pattern search is issued exactly when the current search
returned zero files, and when the current search has matches its first file is
the one chosen for download. -/
theorem fetchKeysSearchOrder (env : FetchEnv) :
    (handleFetchKeys true env).queriesIssued.head? = some SearchPattern.keystorePattern
    ∧ (SearchPattern.legacyPattern ∈ (handleFetchKeys true env).queriesIssued
        ↔ env.keystoreSearch = Except.ok [])
    ∧ ∀ file rest, env.keystoreSearch = Except.ok (file :: rest) →
        (handleFetchKeys true env).chosenFile = some file := by
  refine ⟨?_, ?_, ?_⟩
  · cases h : env.keystoreSearch with
    | error e => simp [handleFetchKeys, h]
    | ok files =>
      cases files with
      | nil =>
        cases h2 : env.legacySearch with
        | error e => simp [handleFetchKeys, h, h2]
        | ok files2 => cases files2 <;> simp [handleFetchKeys, h, h2]
      | cons f fs => simp [handleFetchKeys, h]
  · cases h : env.keystoreSearch with
    | error e => simp [handleFetchKeys, h]
    | ok files =>
      cases files with
      | nil =>
        cases h2 : env.legacySearch with
        | error e => simp [handleFetchKeys, h, h2]
        | ok files2 => cases files2 <;> simp [handleFetchKeys, h, h2]
      | cons f fs => simp [handleFetchKeys, h]
  · intro file rest h
    simp [handleFetchKeys, h]

/-- Witness for C4: a run whose current-pattern search finds one file issues
only that search and downloads that file. -/
theorem fetchKeysSearchOrderW :
    (handleFetchKeys true
        { keystoreSearch := Except.ok [{ id := "f1", name := "polkadot-keystore-a.json" }]
          legacySearch := Except.ok []
          downloadOk := true
          content := none
          nowIso := "now" }).chosenFile
      = some { id := "f1", name := "polkadot-keystore-a.json" } :=
  (fetchKeysSearchOrder _).2.2 _ [] rfl

/-- C6: with a token present and both searches succeeding with zero files, the
run ends in the not-found outcome: only the two searches were issued, nothing
was downloaded, the account is unchanged and the busy flag is cleared.  The
model of the handler is a total function, reflecting that every throw inside
the handler is absorbed by its outer catch rather than escaping. -/
theorem fetchKeysNotFoundOutcome (env : FetchEnv)
    (h1 : env.keystoreSearch = Except.ok [])
    (h2 : env.legacySearch = Except.ok []) :
    handleFetchKeys true env
      = { queriesIssued := [SearchPattern.keystorePattern, SearchPattern.legacyPattern]
          chosenFile := none, outcome := FetchOutcome.notFound
          accountSet := none, busyAtEnd := false } := by
  simp [handleFetchKeys, h1, h2]

/-- Witness for C6: a concrete empty Drive. -/
theorem fetchKeysNotFoundOutcomeW :
    handleFetchKeys true
        { keystoreSearch := Except.ok [], legacySearch := Except.ok []
          downloadOk := true, content := none, nowIso := "now" }
      = { queriesIssued := [SearchPattern.keystorePattern, SearchPattern.legacyPattern]
          chosenFile := none, outcome := FetchOutcome.notFound
          accountSet := none, busyAtEnd := false } :=
  fetchKeysNotFoundOutcome _ rfl rfl

/-- A deprecated plaintext account file, as written by the old serializeAccount
path: the full account object in the clear, mnemonic included.  It has no
encoded or encoding field, so it is not a current-format keystore document. -/
def legacyPlainContent : Json :=
  Json.obj [
    ("mnemonic", Json.str "legacy twelve words"),
    ("address", Json.str "g6LegacyAddr12345"),
    ("publicKey", Json.str "0xab"),
    ("keystoreJson", Json.null),
    ("meta", Json.obj [
      ("name", Json.str "Old Account"),
      ("created", Json.str "2023-01-01T00:00:00.000Z")])]

/-- A retrieve run whose deprecated-pattern search finds the legacy file. -/
def legacyFetchEnv : FetchEnv :=
  { keystoreSearch := Except.ok []
    legacySearch := Except.ok [{ id := "old1", name := "polkadot-account-x.json" }]
    downloadOk := true
    content := some legacyPlainContent
    nowIso := "2024-01-01T00:00:00.000Z" }

/-- C5 (code bug): the legacy plaintext file carries a truthy mnemonic and is
not in the current keystore format (no encoded field), yet the run loads it
through the current-format branch: accountFromPolkadotJson accepts any valid
JSON, so the outcome is loadedKeystore, the stored account has an empty
mnemonic, and the plaintext-exposure warning of the legacy fallback is never
reached. -/
theorem legacyContentLoadedAsKeystoreDroppingMnemonic :
    jsTruthy (jsGetOpt (some legacyPlainContent) "mnemonic") = true
    ∧ jsGetOpt (some legacyPlainContent) "encoded" = none
    ∧ (handleFetchKeys true legacyFetchEnv).outcome = FetchOutcome.loadedKeystore
    ∧ (handleFetchKeys true legacyFetchEnv).accountSet.map (fun a => a.mnemonic)
        = some (some (Json.str "")) := by
  refine ⟨by rfl, by rfl, by rfl, by rfl⟩

/-- One hex digit. -/
def hexDigit (n : Nat) : Char :=
  if n < 10 then Char.ofNat (48 + n) else Char.ofNat (87 + n)

/-- Two hex digits of one byte. -/
def hexByte (n : Nat) : String :=
  String.mk [hexDigit (n % 256 / 16), hexDigit (n % 16)]

/-- toHex of a chain hash (an H256 given as its bytes): the 0x prefixed hex
text, as @polkadot/util u8aToHex renders it. -/
def toHex (bytes : List Nat) : String :=
  "0x" ++ String.join (bytes.map hexByte)

/-- toHex output is never the empty string: it always starts with 0x. -/
theorem toHex_ne_empty (bytes : List Nat) : toHex bytes ≠ "" := by
  intro h
  have hlen : (toHex bytes).length = 0 := by rw [h]; rfl
  rw [toHex, String.length_append] at hlen
  simp [String.length] at hlen

/-- A dispatch error reported with a status update.  For a module error the
registry decodes section, name and docs (findMetaError is the external
registry of the connected chain; its decoded strings are carried here). -/
inductive DispatchError where
  | moduleErr (sectionText errName docs : String)
  | other (text : String)
  deriving DecidableEq

/-- The error message sendBalanceTransfer builds from a dispatch error:
section.name: docs for a decoded module error, toString otherwise. -/
def dispatchErrorMessage : DispatchError → String
  | DispatchError.moduleErr s n d => s ++ "." ++ n ++ ": " ++ d
  | DispatchError.other t => t

/-- One event record delivered with a status update ({ event } with section,
method and data; data.toString() is carried as text). -/
structure ChainEvent where
  sectionText : String
  methodText : String
  dataText : String
  deriving DecidableEq

/-- One invocation of the signAndSend status callback: the events delivered
with it, an optional dispatch error, and the including block hash when
status.isInBlock. -/
structure StatusUpdate where
  events : List ChainEvent
  dispatchError : Option DispatchError
  inBlock : Option (List Nat)
  deriving DecidableEq

/-- One entry of ExtrinsicResult.events. -/
structure EventOut where
  sectionText : String
  methodText : String
  data : String
  deriving DecidableEq

/-- The ExtrinsicResult interface of src/lib/polkadotExtrinsics.ts: success
plus optional hash, blockHash, error and events fields. -/
structure ExtrinsicResult where
  success : Bool
  hash : Option String
  blockHash : Option String
  error : Option String
  events : Option (List EventOut)
  deriving DecidableEq

/-- The failure value the catch arms resolve with. -/
def failureResult (e : String) : ExtrinsicResult :=
  { success := false, hash := none, blockHash := none, error := some e, events := none }

/-- Adapter outcomes for one sendBalanceTransfer call: the synchronous
construction of api.tx.balances.transferAllowDeath (ok carries the transfer
hash the built extrinsic exposes), the synchronous acceptance of
transfer.signAndSend, and the status callback invocations in order. -/
structure SendEnv where
  construct : Except String (List Nat)
  signAndSendAccepted : Except String Unit
  updates : List StatusUpdate

/-- The callback of sendBalanceTransfer (src/lib/polkadotExtrinsics.ts
81-115) over successive invocations: the first update carrying a dispatch
error resolves failure with its decoded message; otherwise the first update
with isInBlock resolves success with the transfer hash, the block hash, and
one {section, method, data} entry per delivered event.  Later invocations
after a resolve are no-ops of the already settled promise. -/
def settleCallback (txHash : List Nat) : List StatusUpdate → Option ExtrinsicResult
  | [] => none
  | u :: rest =>
    match u.dispatchError with
    | some de => some (failureResult (dispatchErrorMessage de))
    | none =>
      match u.inBlock with
      | some blockBytes =>
          some { success := true
                 hash := some (toHex txHash)
                 blockHash := some (toHex blockBytes)
                 error := none
                 events := some (u.events.map (fun ev =>
                   { sectionText := ev.sectionText, methodText := ev.methodText
                     data := ev.dataText })) }
      | none => settleCallback txHash rest

/-- sendBalanceTransfer (src/lib/polkadotExtrinsics.ts 71-123): a promise that
only ever resolves.  A synchronous throw from constructing or submitting the
transfer is caught and resolved as a failure result; otherwise the status
callback settles it, and none models a promise still pending because no
settling update has arrived. -/
def sendBalanceTransfer (env : SendEnv) : Option ExtrinsicResult :=
  match env.construct with
  | Except.error e => some (failureResult e)
  | Except.ok txHash =>
    match env.signAndSendAccepted with
    | Except.error e => some (failureResult e)
    | Except.ok _ => settleCallback txHash env.updates

/-- The update that settles the promise: the first with a dispatch error or an
inclusion status. -/
def settlingUpdate : List StatusUpdate → Option StatusUpdate
  | [] => none
  | u :: rest =>
    if u.dispatchError.isSome || u.inBlock.isSome then some u
    else settlingUpdate rest

/-- C8: every successful resolution of sendBalanceTransfer carries a non-empty
transaction hash and a non-empty inclusion block hash, and its events list has
exactly one entry per event the settling callback invocation delivered. -/
theorem successResultHashesAndEvents (env : SendEnv) (r : ExtrinsicResult)
    (hr : sendBalanceTransfer env = some r) (hs : r.success = true) :
    (∃ h, r.hash = some h ∧ h ≠ "")
    ∧ (∃ bh, r.blockHash = some bh ∧ bh ≠ "")
    ∧ (∃ u evs, settlingUpdate env.updates = some u ∧ u.dispatchError = none
        ∧ r.events = some evs ∧ evs.length = u.events.length) := by
  rcases env with ⟨construct, accepted, updates⟩
  cases construct with
  | error e => simp [sendBalanceTransfer, failureResult] at hr; simp [← hr] at hs
  | ok txHash =>
    cases accepted with
    | error e => simp [sendBalanceTransfer, failureResult] at hr; simp [← hr] at hs
    | ok _ =>
      simp only [sendBalanceTransfer] at hr
      induction updates with
      | nil => simp [settleCallback] at hr
      | cons u rest ih =>
        cases hde : u.dispatchError with
        | some de =>
          rw [settleCallback, hde] at hr
          simp at hr
          simp [← hr, failureResult] at hs
        | none =>
          cases hib : u.inBlock with
          | some blockBytes =>
            rw [settleCallback, hde, hib] at hr
            simp at hr
            refine ⟨⟨toHex txHash, ?_, toHex_ne_empty txHash⟩,
                    ⟨toHex blockBytes, ?_, toHex_ne_empty blockBytes⟩,
                    u, u.events.map (fun ev =>
                      { sectionText := ev.sectionText, methodText := ev.methodText
                        data := ev.dataText }), ?_, hde, ?_, by simp⟩
            · rw [← hr]
            · rw [← hr]
            · simp [settlingUpdate, hde, hib]
            · rw [← hr]
          | none =>
            rw [settleCallback, hde, hib] at hr
            have := ih hr
            rcases this with ⟨h1, h2, u2, evs, hset, hde2, hevs, hlen⟩
            exact ⟨h1, h2, u2, evs, by simp [settlingUpdate, hde, hib, hset], hde2, hevs, hlen⟩

/-- A concrete submission settled by inclusion with two events. -/
def inclusionSendEnv : SendEnv :=
  { construct := Except.ok [171]
    signAndSendAccepted := Except.ok ()
    updates := [
      { events := [
          { sectionText := "balances", methodText := "Transfer", dataText := "d1" },
          { sectionText := "system", methodText := "ExtrinsicSuccess", dataText := "d2" }]
        dispatchError := none
        inBlock := some [1, 2] }] }

/-- The resolution of the concrete submission above. -/
def inclusionSendResult : ExtrinsicResult :=
  { success := true
    hash := some "0xab"
    blockHash := some "0x0102"
    error := none
    events := some [
      { sectionText := "balances", methodText := "Transfer", data := "d1" },
      { sectionText := "system", methodText := "ExtrinsicSuccess", data := "d2" }] }

/-- Witness for C8: the concrete inclusion resolves to the success result
above, whose hashes are non-empty and whose event list matches the two
delivered events. -/
theorem successResultHashesAndEventsW :
    (∃ h, inclusionSendResult.hash = some h ∧ h ≠ "")
    ∧ (∃ bh, inclusionSendResult.blockHash = some bh ∧ bh ≠ "")
    ∧ (∃ u evs, settlingUpdate inclusionSendEnv.updates = some u
        ∧ u.dispatchError = none
        ∧ inclusionSendResult.events = some evs ∧ evs.length = u.events.length) :=
  successResultHashesAndEvents inclusionSendEnv inclusionSendResult rfl rfl

/-- C10: sendBalanceTransfer never rejects and never drops a synchronous
error: a throw from constructing the transfer resolves the promise with a
failure result carrying the message, a throw from submitting it does the
same, and the promise is still pending only when both synchronous steps
succeeded (so no error can leave it unsettled). -/
theorem sendBalanceTransferNeverRejects (env : SendEnv) :
    (∀ e, env.construct = Except.error e →
        sendBalanceTransfer env = some (failureResult e))
    ∧ (∀ txHash e, env.construct = Except.ok txHash →
        env.signAndSendAccepted = Except.error e →
        sendBalanceTransfer env = some (failureResult e))
    ∧ (sendBalanceTransfer env = none →
        (∃ txHash, env.construct = Except.ok txHash)
        ∧ env.signAndSendAccepted = Except.ok ()) := by
  refine ⟨?_, ?_, ?_⟩
  · intro e he; simp [sendBalanceTransfer, he]
  · intro txHash e hc hs; simp [sendBalanceTransfer, hc, hs]
  · intro hnone
    rcases hc : env.construct with e | txHash
    · simp [sendBalanceTransfer, hc] at hnone
    · rcases hs : env.signAndSendAccepted with e | u
      · simp [sendBalanceTransfer, hc, hs] at hnone
      · exact ⟨⟨txHash, rfl⟩, rfl⟩

/-- Witness for C10: a construction throw resolves as failure. -/
theorem sendBalanceTransferNeverRejectsW :
    sendBalanceTransfer
        { construct := Except.error "boom", signAndSendAccepted := Except.ok ()
          updates := [] }
      = some (failureResult "boom") :=
  (sendBalanceTransferNeverRejects _).1 "boom" rfl

/-- The balance record getAccountBalance returns (each field stringified). -/
structure BalanceInfo where
  free : String
  reserved : String
  frozen : String

/-- Adapter outcomes for one test-transaction run: connecting the api
(initializePolkadotApi), loading the signer from the keystore
(loadAccountFromKeystore, ok carries the signer address), the balance query
(getAccountBalance), and the submission environment for sendBalanceTransfer. -/
structure ChainEnv where
  connect : Except String Unit
  loadPair : Except String String
  balance : Except String BalanceInfo
  send : SendEnv

/-- The trace of one handleTestExtrinsic run: whether connect was attempted
and succeeded, how many times disconnectApi ran, whether the zero-balance
advisory fired, whether sendBalanceTransfer was invoked, the value passed to
the final setExtrinsicResult (none when never reached), whether the handler is
stuck awaiting an unsettled promise, and the isSendingExtrinsic flag when the
run ends (still true when stuck, since the finally clause has not run). -/
structure TestRunTrace where
  connectAttempted : Bool
  connectOk : Bool
  disconnectCalls : Nat
  balanceWarned : Bool
  transferSubmitted : Bool
  resultSet : Option ExtrinsicResult
  hung : Bool
  busyAtEnd : Bool
  deriving DecidableEq

/-- The trace of an early return before any connection attempt. -/
def earlyReturnTrace : TestRunTrace :=
  { connectAttempted := false, connectOk := false, disconnectCalls := 0
    balanceWarned := false, transferSubmitted := false, resultSet := none
    hung := false, busyAtEnd := false }

/-- handleTestExtrinsic (src/App.tsx 462-566): guard on a loaded account with
a truthy keystore, then inside one try block connect, load the signer, query
the balance (warning on a zero free balance without branching), submit via
sendBalanceTransfer, report the result, and only then disconnect.  The catch
clause stores a failure result; the finally clause clears the busy flag.  The
disconnect call sits inside the try, after every awaited step: a throw from
loading the signer or querying the balance skips it. -/
def handleTestExtrinsic (generatedAccount : Option SubstrateAccount) (env : ChainEnv) :
    TestRunTrace :=
  match generatedAccount with
  | none => earlyReturnTrace
  | some acct =>
    if jsTruthy acct.keystoreJson then
      match env.connect with
      | Except.error e =>
          { connectAttempted := true, connectOk := false, disconnectCalls := 0
            balanceWarned := false, transferSubmitted := false
            resultSet := some (failureResult e), hung := false, busyAtEnd := false }
      | Except.ok _ =>
        match env.loadPair with
        | Except.error e =>
            { connectAttempted := true, connectOk := true, disconnectCalls := 0
              balanceWarned := false, transferSubmitted := false
              resultSet := some (failureResult e), hung := false, busyAtEnd := false }
        | Except.ok _ =>
          match env.balance with
          | Except.error e =>
              { connectAttempted := true, connectOk := true, disconnectCalls := 0
                balanceWarned := false, transferSubmitted := false
                resultSet := some (failureResult e), hung := false, busyAtEnd := false }
          | Except.ok bal =>
            match sendBalanceTransfer env.send with
            | none =>
                { connectAttempted := true, connectOk := true, disconnectCalls := 0
                  balanceWarned := bal.free == "0", transferSubmitted := true
                  resultSet := none, hung := true, busyAtEnd := true }
            | some result =>
                { connectAttempted := true, connectOk := true, disconnectCalls := 1
                  balanceWarned := bal.free == "0", transferSubmitted := true
                  resultSet := some result, hung := false, busyAtEnd := false }
    else earlyReturnTrace

/-- The trace of one exampleSendTransactionFromKeystore run
(src/lib/polkadotExtrinsics.ts 247-294). -/
structure ExampleRunTrace where
  returned : Option ExtrinsicResult
  disconnectCalls : Nat
  hung : Bool
  deriving DecidableEq

/-- exampleSendTransactionFromKeystore: the same connect, load, balance,
construct, estimate, submit sequence, but with the disconnect in a finally
clause guarded by a non-null api, so every completed run that opened a
connection closes it exactly once.  The transfer construction at step 4 is
the same adapter call sendBalanceTransfer makes, so it shares its outcome;
the fee estimate is a further adapter call. -/
def exampleSendTransactionFromKeystore (env : ChainEnv)
    (feeOutcome : Except String String) : ExampleRunTrace :=
  match env.connect with
  | Except.error e =>
      { returned := some (failureResult e), disconnectCalls := 0, hung := false }
  | Except.ok _ =>
    match env.loadPair with
    | Except.error e =>
        { returned := some (failureResult e), disconnectCalls := 1, hung := false }
    | Except.ok _ =>
      match env.balance with
      | Except.error e =>
          { returned := some (failureResult e), disconnectCalls := 1, hung := false }
      | Except.ok _ =>
        match env.send.construct with
        | Except.error e =>
            { returned := some (failureResult e), disconnectCalls := 1, hung := false }
        | Except.ok _ =>
          match feeOutcome with
          | Except.error e =>
              { returned := some (failureResult e), disconnectCalls := 1, hung := false }
          | Except.ok _ =>
            match sendBalanceTransfer env.send with
            | none => { returned := none, disconnectCalls := 0, hung := true }
            | some result =>
                { returned := some result, disconnectCalls := 1, hung := false }

/-- A loaded account with a truthy keystore document, for concrete runs. -/
def loadedAccount : SubstrateAccount :=
  { mnemonic := some (Json.str "")
    address := some (Json.str "g6SenderAddr")
    publicKey := some (Json.str "")
    keystoreJson := some (Json.obj [("address", Json.str "g6SenderAddr")])
    meta := some (Json.obj [("name", Json.str "acct")]) }

/-- A run where the connection opens and loading the signer then fails
(a wrong passphrase). -/
def signerFailureEnv : ChainEnv :=
  { connect := Except.ok ()
    loadPair := Except.error "Failed to load account from keystore: wrong password"
    balance := Except.ok { free := "0", reserved := "0", frozen := "0" }
    send := { construct := Except.ok [171], signAndSendAccepted := Except.ok ()
              updates := [] } }

/-- A run where every step up to submission succeeds and the transfer is
included. -/
def signerSuccessEnv : ChainEnv :=
  { connect := Except.ok ()
    loadPair := Except.ok "g6SenderAddr"
    balance := Except.ok { free := "7", reserved := "0", frozen := "0" }
    send := inclusionSendEnv }

/-- C1 (code bug): in the run above the connect step succeeded, yet
handleTestExtrinsic never calls disconnectApi (its disconnect sits inside the
try block, so the catch path skips it), while the same failure under the
library exampleSendTransactionFromKeystore, whose disconnect is in a finally
clause, closes the opened connection exactly once. -/
theorem testExtrinsicSkipsDisconnectOnSignerFailure :
    (handleTestExtrinsic (some loadedAccount) signerFailureEnv).connectOk = true
    ∧ (handleTestExtrinsic (some loadedAccount) signerFailureEnv).disconnectCalls = 0
    ∧ (handleTestExtrinsic (some loadedAccount) signerFailureEnv).resultSet
        = some (failureResult "Failed to load account from keystore: wrong password")
    ∧ (exampleSendTransactionFromKeystore signerFailureEnv
        (Except.ok "0")).disconnectCalls = 1 := by
  refine ⟨by rfl, by rfl, by rfl, by rfl⟩

/-- C7: a zero free balance never branches the workflow: under the same
account and the same adapter outcomes apart from the reported balance, the
run submits the transfer, stores the same result, disconnects the same number
of times and hangs in the same cases whatever the balance, and the only
difference is the advisory warning, fired exactly when the free balance
stringifies to 0. -/
theorem zeroBalanceOnlyAdvisory (acct : SubstrateAccount) (env : ChainEnv)
    (b b2 : BalanceInfo)
    (hK : jsTruthy acct.keystoreJson = true)
    (hC : env.connect = Except.ok ())
    (hL : ∃ addr, env.loadPair = Except.ok addr) :
    (handleTestExtrinsic (some acct) { env with balance := Except.ok b }).transferSubmitted
        = true
    ∧ (handleTestExtrinsic (some acct) { env with balance := Except.ok b }).balanceWarned
        = (b.free == "0")
    ∧ (handleTestExtrinsic (some acct) { env with balance := Except.ok b }).resultSet
        = (handleTestExtrinsic (some acct) { env with balance := Except.ok b2 }).resultSet
    ∧ (handleTestExtrinsic (some acct) { env with balance := Except.ok b }).disconnectCalls
        = (handleTestExtrinsic (some acct) { env with balance := Except.ok b2 }).disconnectCalls
    ∧ (handleTestExtrinsic (some acct) { env with balance := Except.ok b }).hung
        = (handleTestExtrinsic (some acct) { env with balance := Except.ok b2 }).hung := by
  rcases hL with ⟨addr, hL⟩
  cases hsend : sendBalanceTransfer env.send <;>
    simp [handleTestExtrinsic, hK, hC, hL, hsend]

/-- Witness for C7: a concrete zero-balance run still submits the transfer. -/
theorem zeroBalanceOnlyAdvisoryW :
    (handleTestExtrinsic (some loadedAccount)
        { signerSuccessEnv with
            balance := Except.ok { free := "0", reserved := "0", frozen := "0" } }).transferSubmitted
      = true :=
  (zeroBalanceOnlyAdvisory loadedAccount signerSuccessEnv
    { free := "0", reserved := "0", frozen := "0" }
    { free := "5", reserved := "0", frozen := "0" }
    rfl rfl ⟨"g6SenderAddr", rfl⟩).1

/-- The state relevant to the generate guard: whether a user is logged in,
the isGeneratingKeys flag, and how many generateSubstrateAccount calls are
currently in flight. -/
structure GenState where
  loggedIn : Bool
  isGeneratingKeys : Bool
  generateCallsInFlight : Nat
  deriving DecidableEq

/-- The generate control is enabled unless no user is logged in or the flag
is set (disabled is user absent or isGeneratingKeys, in App.tsx and in
PolkadotAccountSection). -/
def generateButtonEnabled (s : GenState) : Bool :=
  s.loggedIn && !s.isGeneratingKeys

/-- Events of the single-threaded UI: a click on the generate control (a
no-op while the control is disabled; otherwise handleGenerateKeys sets the
flag and starts the adapter call before its first await), the settlement of
an in-flight generate call (success or failure: the finally clause clears the
flag), and login or logout (which never touch the flag). -/
inductive GenEvent where
  | clickGenerate
  | generateSettled
  | login
  | logout

/-- One transition of the generate guard machine. -/
def genStep (s : GenState) : GenEvent → GenState
  | GenEvent.clickGenerate =>
      if generateButtonEnabled s then
        { s with isGeneratingKeys := true
                 generateCallsInFlight := s.generateCallsInFlight + 1 }
      else s
  | GenEvent.generateSettled =>
      if s.generateCallsInFlight > 0 then
        { s with isGeneratingKeys := false
                 generateCallsInFlight := s.generateCallsInFlight - 1 }
      else s
  | GenEvent.login => { s with loggedIn := true }
  | GenEvent.logout => { s with loggedIn := false }

/-- The page-load state: no user, flag clear, nothing in flight. -/
def initialGenState : GenState :=
  { loggedIn := false, isGeneratingKeys := false, generateCallsInFlight := 0 }

/-- States reachable from page load under the events above. -/
inductive GenReachable : GenState → Prop where
  | init : GenReachable initialGenState
  | step (s : GenState) (e : GenEvent) : GenReachable s → GenReachable (genStep s e)

/-- The inductive invariant: the in-flight count is one exactly while the
flag is set and zero otherwise. -/
theorem genInFlightMatchesFlag (s : GenState) (h : GenReachable s) :
    s.generateCallsInFlight = (if s.isGeneratingKeys then 1 else 0) := by
  induction h with
  | init => rfl
  | step s e _ ih =>
    cases e with
    | clickGenerate =>
      by_cases hb : generateButtonEnabled s = true
      · have hflag : s.isGeneratingKeys = false := by
          rcases s with ⟨l, g, n⟩
          cases g
          · rfl
          · simp [generateButtonEnabled] at hb
        simp [genStep, hb, hflag, ih]
      · simp [genStep, hb, ih]
    | generateSettled =>
      by_cases hn : s.generateCallsInFlight > 0
      · have hflag : s.isGeneratingKeys = true := by
          by_contra hc
          simp [hc] at ih
          omega
        simp [hflag] at ih
        simp [genStep, hn]
        omega
      · simp [genStep, hn]
        exact ih
    | login => simpa [genStep] using ih
    | logout => simpa [genStep] using ih

/-- C9: in every state reachable from page load, at most one generate call is
in flight, and a click while isGeneratingKeys is set changes nothing (the
disabled control issues no second call). -/
theorem atMostOneGenerateInFlight (s : GenState) (h : GenReachable s) :
    s.generateCallsInFlight ≤ 1
    ∧ (s.isGeneratingKeys = true → genStep s GenEvent.clickGenerate = s) := by
  constructor
  · have := genInFlightMatchesFlag s h
    cases hg : s.isGeneratingKeys <;> simp [hg] at this <;> omega
  · intro hg
    simp [genStep, generateButtonEnabled, hg]

/-- Witness for C9: the state after login and one click is reachable and
satisfies the bound. -/
theorem atMostOneGenerateInFlightW :
    (genStep (genStep initialGenState GenEvent.login)
        GenEvent.clickGenerate).generateCallsInFlight ≤ 1 :=
  (atMostOneGenerateInFlight _
    (GenReachable.step _ _ (GenReachable.step _ _ GenReachable.init))).1

end Dashboard
